import Mathlib

/-!
Verification of the core report-generation pipeline of the Barangay Case
Analyzer (src/script.js): keyword classification, the static legal knowledge
base, mediation-strategy generation, question generation, form validation and
report assembly.  The JavaScript functions are embedded shallowly as pure,
executable Lean functions; DOM access is replaced by explicit record
arguments, and the wall-clock observation `new Date()` made inside
`generateMediationStrategy` is passed in explicitly as a `now` argument so
that (in)dependence on it can be stated.
-/

namespace BarangayCase

/-- The five case classifications produced by `classifyCase` ("theft",
"threat", "defamation", "injury", "general" in the JS source, where they are
plain strings used as keys into `LEGAL_DATA`). -/
inductive CaseCategory
  | theft
  | threat
  | defamation
  | injury
  | general
deriving DecidableEq

/-- One entry of a `violations` or `counters` array in `LEGAL_DATA`. -/
structure Provision where
  title : String
  basis : String
  text : String
  penalty : String
deriving DecidableEq

/-- One entry of a `jurisprudence` array in `LEGAL_DATA`. -/
structure CaseCitation where
  title : String
  summary : String
deriving DecidableEq

/-- One per-category record of `LEGAL_DATA`. -/
structure LegalRecord where
  nature : String
  description : String
  violations : List Provision
  jurisprudence : List CaseCitation
  counters : List Provision
deriving DecidableEq

/-- Return value of `generateMediationStrategy`. -/
structure MediationStrategy where
  objectives : List String
  issues : List String
  notForMediation : List String
  outcomes : List String
deriving DecidableEq

/-- Return value of `generateQuestions`. -/
structure QuestionSet where
  openEnded : List String
  clarifying : List String
  reflective : List String
  exploratory : List String
  conscience : List String
deriving DecidableEq

/-- Contact fields of the complainant or of one respondent. -/
structure PartyInfo where
  name : String
  phone : String
  email : String
  address : String
deriving DecidableEq

/-- The incident fields of the form (`incidentSummary`, `incidentLocation`,
`incidentDateTime` element values). -/
structure IncidentInfo where
  summary : String
  location : String
  dateTime : String
deriving DecidableEq

/-- Raw form-field values as read from the form elements, before the trimming
performed by `gatherData`.  This replaces the DOM reads of the JS source. -/
structure FormInput where
  caseId : String
  dateReceived : String
  complainant : PartyInfo
  respondents : List PartyInfo
  incident : IncidentInfo
deriving DecidableEq

/-- The two question sets built in `generateReport`. -/
structure QuestionsPair where
  complainant : QuestionSet
  respondent : QuestionSet
deriving DecidableEq

/-- The report data object assembled by `generateReport` (the `reportData`
value handed to `renderReport`). -/
structure CaseReport where
  caseId : String
  dateReceived : String
  complainant : PartyInfo
  respondents : List PartyInfo
  incident : IncidentInfo
  caseTitle : String
  analysis : LegalRecord
  mediation : MediationStrategy
  questions : QuestionsPair
deriving DecidableEq

/-! ### String primitives

JS string operations are modelled on the character list underlying `String`,
by structural recursion, so that every definition evaluates inside the
kernel.  Case folding and trimming are the ASCII behaviour, which coincides
with the JS behaviour on all inputs considered here. -/

/-- Model of JS `String.prototype.toLowerCase` (ASCII case folding). -/
def jsToLowerCase (s : String) : String :=
  String.mk (s.data.map Char.toLower)

/-- Model of JS `String.prototype.trim`: drop leading and trailing
whitespace. -/
def jsTrim (s : String) : String :=
  String.mk (((s.data.dropWhile Char.isWhitespace).reverse.dropWhile
    Char.isWhitespace).reverse)

/-- Does `text` contain `pat` as a contiguous run, starting at any
position? -/
def containsFrom (pat : List Char) : List Char → Bool
  | [] => pat.isEmpty
  | c :: rest => pat.isPrefixOf (c :: rest) || containsFrom pat rest

/-- Model of an alternation-free JS regex literal tested against `text`:
`true` exactly when `pat` occurs in `text` as an unanchored substring. -/
def strContainsSub (text pat : String) : Bool :=
  containsFrom pat.data text.data

/-- `kwMatch kws text` models `/k1|k2|.../.test(text)` for literal keyword
alternatives: some keyword of `kws` occurs in `text` as a substring. -/
def kwMatch (kws : List String) (text : String) : Bool :=
  kws.any (fun k => strContainsSub text k)

/-! ### Classifier (`classifyCase`, src/script.js lines 78-86) -/

/-- The alternatives of the theft regex on line 81. -/
def theftKeywords : List String :=
  ["steal", "theft", "stole", "rob", "robbed", "take", "took", "taken",
   "takin", "missing"]

/-- The alternatives of the threat regex on line 82. -/
def threatKeywords : List String :=
  ["threat", "kill", "hurt", "intimidat"]

/-- The alternatives of the defamation regex on line 83. -/
def defamationKeywords : List String :=
  ["defam", "slander", "insult", "libel", "oral"]

/-- The alternatives of the injury regex on line 84. -/
def injuryKeywords : List String :=
  ["injur", "hit", "punch", "physical", "attack"]

/-- `classifyCase` (src/script.js lines 78-86): lower-case the summary, then
test the four keyword regexes in order, returning on the first match, with
`general` as the fall-through. -/
def classifyCase (summary : String) : CaseCategory :=
  let text := jsToLowerCase summary
  if kwMatch theftKeywords text then .theft
  else if kwMatch threatKeywords text then .threat
  else if kwMatch defamationKeywords text then .defamation
  else if kwMatch injuryKeywords text then .injury
  else .general


/-! ### Legal Knowledge Base (`LEGAL_DATA`, src/script.js lines 89-271) -/

/-- The predefined legal analysis table of src/script.js (`LEGAL_DATA`), keyed by
case classification.  JS object access `LEGAL_DATA[classification]` is total over
the five classification keys, so it is embedded as a total function. -/
def LEGAL_DATA : CaseCategory → LegalRecord
  | .theft =>
    { nature := "Theft / Qualified Theft",
      description := "Theft involves taking personal property belonging to another without their consent and with intent to gain. Qualified theft occurs when the offender and owner have a relationship of trust (e.g., employee and employer).",
      violations := [
        { title := "Theft",
          basis := "Revised Penal Code Art. 308",
          text := "Article\u00a0308 defines theft as taking personal property belonging to another without violence or intimidation, including the misappropriation of found property and the concealment of lost goods. The offender must intend to gain from the property\u3010302115606301760\u2020L4077-L4134\u3011.",
          penalty := "Article\u00a0309 provides penalties depending on the value of the property: if the value does not exceed \u20b15,000, arresto\u00a0mayor or fine applies; between \u20b15,000 and \u20b112,000, arresto\u00a0mayor to prision\u00a0correccional; \u20b112,000 to \u20b150,000, prision\u00a0correccional; above \u20b150,000, prision\u00a0mayor\u3010302115606301760\u2020L4077-L4134\u3011." },
        { title := "City ordinance on employment of seniors and PWDs",
          basis := "San\u00a0Pedro City Ordinance\u00a0No.\u00a02024\u201113",
          text := "This ordinance mandates private businesses to reserve at least one job out of ten for senior citizens and persons with disabilities (PWDs) and requires city offices to allocate at least 1% of positions to them\u301050922767766975\u2020L25-L57\u3011.",
          penalty := "Non\u2011compliance or misrepresentation results in a fine of \u20b15,000 or imprisonment up to one year\u301050922767766975\u2020L25-L57\u3011." }
      ],
      jurisprudence := [
        { title := "Sonia\u00a0Balagtas\u00a0v.\u00a0People (G.R.\u00a0No.\u00a0257483, 30\u00a0Oct\u00a02024)",
          summary := "The Supreme Court held that, to convict for qualified theft, the prosecution must prove a relationship of confidence between the accused and the offended party. In this case, a payroll manager who padded salaries and pocketed the difference was convicted of qualified theft\u3010267612455535893\u2020L72-L76\u3011\u3010267612455535893\u2020L87-L96\u3011." }
      ],
      counters := [
        { title := "Malicious mischief",
          basis := "Revised Penal Code Art.\u00a0327",
          text := "If property was merely damaged without intent to gain, the proper charge may be malicious mischief rather than theft.",
          penalty := "Penalties vary depending on the amount of damage (fine or imprisonment)." },
        { title := "False accusation / Oral defamation",
          basis := "Revised Penal Code Art.\u00a0358",
          text := "A respondent may file a counter\u2011charge for oral defamation if the complainant made false or malicious allegations.",
          penalty := "Serious oral defamation is punishable by arresto\u00a0mayor to prision\u00a0correccional; slight defamation carries arresto\u00a0menor or a fine\u3010302115606301760\u2020L4784-L4793\u3011." }
      ] }
  | .threat =>
    { nature := "Grave Threats / Threatening Behaviour",
      description := "Threats involve threatening another with the infliction of any wrong amounting to a crime. Grave threats are punished based on conditions set and whether the threat is fulfilled.",
      violations := [
        { title := "Grave threats",
          basis := "Revised Penal Code Art.\u00a0282",
          text := "Article\u00a0282 punishes any person who threatens another with the infliction of a wrong amounting to a crime. The penalty varies depending on whether a demand or condition is imposed and whether the threat is communicated in writing or through a middleman\u3010467119748815266\u2020L161-L178\u3011.",
          penalty := "If the threat includes a demand and the offender attains the objective, the penalty is one degree lower than that prescribed for the threatened crime. If the objective is not attained, two degrees lower; if there is no demand or condition, the penalty is arresto\u00a0mayor and a fine up to \u20b1100,000\u3010467119748815266\u2020L161-L178\u3011." }
      ],
      jurisprudence := [
        { title := "Paera\u00a0v.\u00a0People (G.R.\u00a0No.\u00a0181626)",
          summary := "The Court upheld the conviction of a barangay chairman who brandished a bolo and threatened his neighbours by shouting \u201cI will kill you,\u201d ruling that his actions constituted grave threats\u3010701912971857914\u2020L75-L110\u3011." }
      ],
      counters := [
        { title := "Provocation and self\u2011defense",
          basis := "General defence",
          text := "Respondents may argue that any threatening statement was provoked or uttered in self\u2011defense. The presence of mitigating circumstances can reduce criminal liability.",
          penalty := "Penalties may be lowered if mitigating circumstances are established." },
        { title := "False accusation / Oral defamation",
          basis := "Revised Penal Code Art.\u00a0358",
          text := "The respondent may counter\u2011charge for libel or oral defamation if the complainant exaggerated or fabricated the alleged threats.",
          penalty := "Serious oral defamation is punishable by arresto\u00a0mayor to prision\u00a0correccional; slight defamation by arresto\u00a0menor or fine\u3010302115606301760\u2020L4784-L4793\u3011." }
      ] }
  | .defamation =>
    { nature := "Oral Defamation (Slander)",
      description := "Oral defamation or slander consists in speaking ill of another, imputing a vice, defect or act which tends to cause dishonour, discredit or contempt.",
      violations := [
        { title := "Oral defamation",
          basis := "Revised Penal Code Art.\u00a0358",
          text := "Article\u00a0358 punishes oral defamation: serious defamation is committed when imputations are serious, while slight defamation covers minor insults. The provision prescribes the applicable penalties\u3010302115606301760\u2020L4784-L4793\u3011.",
          penalty := "Serious oral defamation: arresto\u00a0mayor to prision\u00a0correccional; slight defamation: arresto\u00a0menor or a fine not exceeding \u20b1200\u3010302115606301760\u2020L4784-L4793\u3011." }
      ],
      jurisprudence := [
        { title := "Balite\u00a0v.\u00a0People (G.R.\u00a0L\u201121475, 30\u00a0Sept\u00a01966)",
          summary := "The Supreme Court convicted a union president of grave oral defamation after he publicly accused another of misappropriating strike funds; the Court imposed arresto\u00a0mayor and prision\u00a0correccional\u3010363720073413201\u2020L79-L87\u3011\u3010363720073413201\u2020L117-L124\u3011." }
      ],
      counters := [
        { title := "Truth and privileged communications",
          basis := "Revised Penal Code Arts.\u00a0354 & 361",
          text := "Statements made in the performance of a lawful duty or in privileged occasions (e.g., judicial proceedings) are not actionable if true and made in good faith.",
          penalty := "No criminal liability if privilege is established." },
        { title := "Counter\u2011libel against complainant",
          basis := "Revised Penal Code Art.\u00a0358",
          text := "If the complainant publicly utters false accusations or defamatory statements during the case, the respondent may file a libel or defamation case.",
          penalty := "Serious oral defamation: arresto\u00a0mayor to prision\u00a0correccional; slight defamation: arresto\u00a0menor or fine\u3010302115606301760\u2020L4784-L4793\u3011." }
      ] }
  | .injury =>
    { nature := "Physical Injuries",
      description := "Physical injuries offences punish acts inflicting bodily harm. Slight physical injuries cover cases where incapacity or medical attendance does not exceed nine days.",
      violations := [
        { title := "Slight physical injuries",
          basis := "Revised Penal Code Art.\u00a0266",
          text := "Article\u00a0266 penalises slight physical injuries and maltreatment. When the offended party is incapacitated for labour or needs medical attendance from one to nine days, the penalty is arresto\u00a0menor; if the injuries do not prevent work, a fine not exceeding \u20b1500 is imposed\u3010302115606301760\u2020L3534-L3546\u3011.",
          penalty := "Arresto\u00a0menor (1\u201330\u00a0days) or fine up to \u20b1500\u3010302115606301760\u2020L3534-L3546\u3011." }
      ],
      jurisprudence := [],
      counters := [
        { title := "Self\u2011defense",
          basis := "General defence",
          text := "Respondent may assert that any injuries were inflicted in lawful self\u2011defense or defense of a relative, which can justify the act.",
          penalty := "No criminal liability if all elements of self\u2011defense are present." },
        { title := "Mutual affray",
          basis := "Revised Penal Code Art.\u00a0251",
          text := "If both parties voluntarily engaged in a fight, each may be liable only for lesser offences depending on the injuries inflicted.",
          penalty := "Penalties vary by resulting injuries and participation." }
      ] }
  | .general =>
    { nature := "General Complaint / Other Offence",
      description := "The facts provided do not clearly correspond to a single criminal classification. Barangay officials should evaluate all facts and identify applicable laws.",
      violations := [
        { title := "Barangay justice system",
          basis := "Local Government Code & Katarungang Pambarangay Rules",
          text := "Most disputes between residents of the same barangay must be referred to the Lupong Tagapamayapa for amicable settlement before they can be filed in court. Exceptions include offences punishable by more than one year\u2019s imprisonment or a fine exceeding \u20b15,000.",
          penalty := "If mediation fails, the complaint may proceed to the courts." },
        { title := "Relevant local ordinances",
          basis := "San\u00a0Pedro City ordinances",
          text := "San\u00a0Pedro City enacts ordinances on matters such as noise control, curfew, sanitation, environmental protection and employment. Depending on the complaint, specific ordinances may apply.",
          penalty := "Penalties vary by ordinance." }
      ],
      jurisprudence := [],
      counters := [] }

/-! ### Date model

The incident `dateTime` field is a `datetime-local` form value
(`YYYY-MM-DDTHH:MM` or `YYYY-MM-DDTHH:MM:SS`).  The source formats it with
`new Date(value).toLocaleString('en-US', { timeZone: 'Asia/Manila' })`, which
parses the value as host-local wall time and prints it in Philippine Standard
Time.  The model below assumes the host clock is itself in Asia/Manila (the
deployment locale), so the printed wall time equals the parsed one; an input
that is not a well-formed `datetime-local` value yields the string
"Invalid Date", exactly as `Date.prototype.toLocaleString` does for an
invalid `Date`. -/

/-- Two-digit zero padding, as used for minute and second fields. -/
def pad2 (n : Nat) : String :=
  if n < 10 then "0" ++ toString n else toString n

/-- Gregorian leap-year rule. -/
def isLeapYear (y : Nat) : Bool :=
  (y % 4 == 0 && y % 100 != 0) || y % 400 == 0

/-- Number of days of month `m` in year `y` (0 for an out-of-range month). -/
def daysInMonth (y m : Nat) : Nat :=
  match m with
  | 1 => 31
  | 2 => if isLeapYear y then 29 else 28
  | 3 => 31
  | 4 => 30
  | 5 => 31
  | 6 => 30
  | 7 => 31
  | 8 => 31
  | 9 => 30
  | 10 => 31
  | 11 => 30
  | 12 => 31
  | _ => 0

/-- Split a character list on a separator character. -/
def splitOnCharAux (sep : Char) : List Char → List Char → List (List Char)
  | [], acc => [acc.reverse]
  | c :: rest, acc =>
    if c = sep then acc.reverse :: splitOnCharAux sep rest []
    else splitOnCharAux sep rest (c :: acc)

/-- Split a string on a separator character (model of `String.split`). -/
def splitOnChar (sep : Char) (s : String) : List (List Char) :=
  splitOnCharAux sep s.data []

/-- Decimal value of a digit list (only meaningful when all are digits). -/
def digitsToNat (l : List Char) : Nat :=
  l.foldl (fun n c => n * 10 + (c.toNat - 48)) 0

/-- A fixed-width all-digit field, as required by the ISO date grammar. -/
def digitField (l : List Char) (width : Nat) : Option Nat :=
  if l.length = width ∧ l.all Char.isDigit then some (digitsToNat l)
  else none

/-- Parse a `datetime-local` string `YYYY-MM-DDTHH:MM(:SS)` into calendar
components, with the same range checks V8 applies to ISO date strings;
`none` models an invalid `Date`. -/
def parseDateTimeLocal (s : String) : Option (Nat × Nat × Nat × Nat × Nat × Nat) :=
  match splitOnChar 'T' s with
  | [d, t] =>
    match splitOnCharAux '-' d [], splitOnCharAux ':' t [] with
    | [ys, ms, ds], timeParts => do
      let y ← digitField ys 4
      let m ← digitField ms 2
      let dd ← digitField ds 2
      let (hs, mis, sss) ←
        match timeParts with
        | [h, mi] => some (h, mi, ['0', '0'])
        | [h, mi, ss] => some (h, mi, ss)
        | _ => none
      let h ← digitField hs 2
      let mi ← digitField mis 2
      let ss ← digitField sss 2
      if 1 ≤ m ∧ m ≤ 12 ∧ 1 ≤ dd ∧ dd ≤ daysInMonth y m ∧ h ≤ 23 ∧
          mi ≤ 59 ∧ ss ≤ 59 then
        some (y, m, dd, h, mi, ss)
      else none
    | _, _ => none
  | _ => none

/-- The `h:MM:SS AM`/`PM` portion of the en-US locale format. -/
def formatTime12h (h mi ss : Nat) : String :=
  let h12 := if h % 12 = 0 then 12 else h % 12
  let ampm := if h < 12 then "AM" else "PM"
  toString h12 ++ ":" ++ pad2 mi ++ ":" ++ pad2 ss ++ " " ++ ampm

/-- Model of `new Date(s).toLocaleString('en-US', { timeZone: 'Asia/Manila' })`
for a `datetime-local` string `s`, under the host-clock assumption described
above: `M/D/YYYY, h:MM:SS AM` (no leading zeros on month, day or hour). -/
def jsToLocaleString (s : String) : String :=
  match parseDateTimeLocal s with
  | some (y, m, d, h, mi, ss) =>
    toString m ++ "/" ++ toString d ++ "/" ++ toString y ++ ", " ++
      formatTime12h h mi ss
  | none => "Invalid Date"

/-- Model of `new Date(s).toLocaleDateString('en-US', { timeZone: 'Asia/Manila' })`
(used only for the dead local `localeDate` of `generateMediationStrategy`). -/
def jsToLocaleDateString (s : String) : String :=
  match parseDateTimeLocal s with
  | some (y, m, d, _, _, _) =>
    toString m ++ "/" ++ toString d ++ "/" ++ toString y
  | none => "Invalid Date"

/-! ### Mediation strategy (`generateMediationStrategy`, src/script.js
lines 274-335)

The JS function reads the wall clock (`const now = new Date()`) and formats
it into a local variable `localeDate` that is never used afterwards.  The
clock observation is made explicit as the `now` argument so that independence
of the result from it is a statable property. -/

/-- `generateMediationStrategy` (src/script.js lines 274-335). -/
def generateMediationStrategy (now : String) (classification : CaseCategory) :
    MediationStrategy :=
  let localeDate := jsToLocaleDateString now
  let commonObjectives : List String :=
    ["Clarify all facts and ensure both parties are fully heard",
     "Encourage parties to agree on appropriate restitution or compensation",
     "Promote respect and restore harmony within the barangay community",
     "Prevent escalation to formal court proceedings when possible",
     "Ensure compliance with applicable laws and ordinances"]
  let (issues, notForMediation, outcomes) :=
    match classification with
    | .theft =>
      (["Return of the allegedly stolen property or restitution of its value",
        "Apology and acknowledgement of harm caused",
        "Agreement on future conduct and respect for property rights"],
       ["Determination of criminal guilt for theft (requires court jurisdiction)"],
       ["Full restitution and documented apology",
        "Community service or volunteer work as a gesture of remorse"])
    | .threat =>
      (["Commitment by respondent to refrain from making threats or harassing statements",
        "Discussion of any underlying disputes prompting the threat",
        "Agreement on safety measures or distance requirements"],
       ["Prosecution of grave threats if elements are present"],
       ["Written undertaking to maintain peace and respect",
        "Agreement on mutual non‑harassment or communications guidelines"])
    | .defamation =>
      (["Withdrawal or correction of defamatory statements",
        "Public or written apology to restore reputation",
        "Agreement to avoid repeating defamatory statements in the future"],
       ["Criminal prosecution for serious defamation"],
       ["Signed retraction and apology",
        "Community clarification to mitigate reputational harm"])
    | .injury =>
      (["Compensation for medical expenses and lost wages",
        "Agreement on avoiding physical confrontation in future",
        "Exploring root causes of the altercation"],
       ["Determination of liability for serious physical injuries"],
       ["Payment of medical costs and damages",
        "Mutual agreement to maintain distance and respect"])
    | .general =>
      (["Clarification of the specific grievances presented",
        "Identification of applicable laws and ordinances",
        "Exploration of remedies agreeable to both parties"],
       ["Matters involving imprisonment of more than one year or fines over ₱5,000"],
       ["Amicable settlement documented with the Lupong Tagapamayapa",
        "Referral to appropriate agencies if outside barangay jurisdiction"])
  let selectedObjectives := commonObjectives.take 5
  { objectives := selectedObjectives, issues := issues,
    notForMediation := notForMediation, outcomes := outcomes }

/-! ### Question generator (`generateQuestions`, src/script.js
lines 338-365) -/

/-- `generateQuestions` (src/script.js lines 338-365).  The `party` local is
computed from `role` but never interpolated into any template; `loc` falls
back to the placeholder "the location" when `location` is empty (falsy), and
`dt` is the empty string when `dateTime` is empty (falsy), otherwise the
locale-formatted date. -/
def generateQuestions (classification : CaseCategory) (role location dateTime : String) :
    QuestionSet :=
  let party := if role = "complainant" then "you" else "you"
  let dt := if dateTime = "" then "" else jsToLocaleString dateTime
  let loc := if location = "" then "the location" else location
  { openEnded :=
      ["Can you describe in your own words what happened at " ++ loc ++
         " on " ++ dt ++ "?",
       "What events led up to the incident and how did you react?",
       "How has this incident affected you personally and your daily life?"],
    clarifying :=
      ["What time did the incident occur and who else was present?",
       "Where exactly at " ++ loc ++ " did the interaction take place?",
       "Can you specify any statements or actions you find particularly significant?"],
    reflective :=
      ["How do you think the other party felt during the incident?",
       "Looking back, is there anything you wish had been done differently?",
       "How has this dispute impacted your relationship with the other party?"],
    exploratory :=
      ["What do you consider a fair and just resolution to this dispute?",
       "Are there any compromises you are willing to make to settle this matter?",
       "What would rebuilding trust look like for you?"],
    conscience :=
      ["If the roles were reversed, how would you want to be treated?",
       "What message do you want to send to the community about resolving disputes?",
       "How would an amicable settlement benefit both you and the other party?"] }

/-! ### Validation, gathering and report assembly (`validateForm`,
`gatherData`, `generateReport`; src/script.js lines 48-75, 652-685,
688-713) -/

/-- `validateForm` (src/script.js lines 48-75) on the three validated element
values: summary non-empty with trimmed length at least 30, location non-empty
with non-empty trimmed text, date/time value present. -/
def validateForm (summary location dateTime : String) : Bool :=
  let summaryValid := !(summary = "" ∨ (jsTrim summary).length < 30 : Bool)
  let locationValid := !(location = "" ∨ (jsTrim location).length = 0 : Bool)
  let dateValid := !(dateTime = "" : Bool)
  summaryValid && locationValid && dateValid

/-- The `.trim()` applied to each contact field read in `gatherData`. -/
def trimParty (p : PartyInfo) : PartyInfo :=
  { name := jsTrim p.name, phone := jsTrim p.phone, email := jsTrim p.email,
    address := jsTrim p.address }

/-- The gathered values of `gatherData` (src/script.js lines 652-685). -/
structure GatheredData where
  caseId : String
  dateReceived : String
  complainant : PartyInfo
  respondents : List PartyInfo
  incident : IncidentInfo
  caseTitle : String
deriving DecidableEq

/-- `gatherData` (src/script.js lines 652-685): trim the text fields, keep
only respondents with at least one non-empty field, and derive the case
title from the complainant name. -/
def gatherData (fd : FormInput) : GatheredData :=
  let caseId := jsTrim fd.caseId
  let complainant := trimParty fd.complainant
  let respondents :=
    (fd.respondents.map trimParty).filter
      (fun r => !(r.name = "" ∧ r.phone = "" ∧ r.email = "" ∧ r.address = "" : Bool))
  let incident : IncidentInfo :=
    { summary := jsTrim fd.incident.summary,
      location := jsTrim fd.incident.location,
      dateTime := fd.incident.dateTime }
  let caseTitle :=
    if complainant.name = "" then "Complainant Case"
    else complainant.name ++ " Case"
  { caseId := caseId, dateReceived := fd.dateReceived,
    complainant := complainant, respondents := respondents,
    incident := incident, caseTitle := caseTitle }

/-- `generateReport` (src/script.js lines 688-713): validate first and stop
with no report when validation fails; otherwise gather the form data,
classify once, and assemble the report from the classification-derived
analysis, mediation strategy and question sets.  `now` is the wall-clock
observation forwarded to `generateMediationStrategy`. -/
def generateReport (now : String) (fd : FormInput) : Option CaseReport :=
  if validateForm fd.incident.summary fd.incident.location fd.incident.dateTime then
    let formData := gatherData fd
    let classification := classifyCase formData.incident.summary
    let analysis := LEGAL_DATA classification
    let mediation := generateMediationStrategy now classification
    let questions : QuestionsPair :=
      { complainant :=
          generateQuestions classification "complainant"
            formData.incident.location formData.incident.dateTime,
        respondent :=
          generateQuestions classification "respondent"
            formData.incident.location formData.incident.dateTime }
    some { caseId := formData.caseId, dateReceived := formData.dateReceived,
           complainant := formData.complainant,
           respondents := formData.respondents,
           incident := formData.incident, caseTitle := formData.caseTitle,
           analysis := analysis, mediation := mediation,
           questions := questions }
  else none

/-! ### Concrete scenario inputs -/

/-- The end-to-end scenario input: theft summary, location
"Purok 3, San Pedro City", dateTime `2024-05-01T20:00`. -/
def sampleForm : FormInput :=
  { caseId := "", dateReceived := "",
    complainant := { name := "", phone := "", email := "", address := "" },
    respondents := [],
    incident :=
      { summary := "Someone took my neighbor\'s carabao while I was sleeping",
        location := "Purok 3, San Pedro City",
        dateTime := "2024-05-01T20:00" } }

/-- A form whose summary has exactly 29 trimmed characters. -/
def shortSummaryForm : FormInput :=
  { caseId := "", dateReceived := "",
    complainant := { name := "", phone := "", email := "", address := "" },
    respondents := [],
    incident :=
      { summary := "This summary is short, sorry.",
        location := "Purok 3, San Pedro City",
        dateTime := "2024-05-01T20:00" } }

/-! ## Theorems -/

/-- C1: `classifyCase` lower-cases the summary and returns the category of
the first matching rule in the fixed order theft, threat, defamation,
injury, falling through to general when no rule matches; a summary with both
a theft keyword ("took") and an injury keyword ("hit") classifies as theft,
and the empty and whitespace-only summaries classify as general. -/
theorem classify_ordered_cascade :
    (∀ s : String, kwMatch theftKeywords (jsToLowerCase s) = true →
      classifyCase s = .theft) ∧
    (∀ s : String, kwMatch theftKeywords (jsToLowerCase s) = false →
      kwMatch threatKeywords (jsToLowerCase s) = true →
      classifyCase s = .threat) ∧
    (∀ s : String, kwMatch theftKeywords (jsToLowerCase s) = false →
      kwMatch threatKeywords (jsToLowerCase s) = false →
      kwMatch defamationKeywords (jsToLowerCase s) = true →
      classifyCase s = .defamation) ∧
    (∀ s : String, kwMatch theftKeywords (jsToLowerCase s) = false →
      kwMatch threatKeywords (jsToLowerCase s) = false →
      kwMatch defamationKeywords (jsToLowerCase s) = false →
      kwMatch injuryKeywords (jsToLowerCase s) = true →
      classifyCase s = .injury) ∧
    (∀ s : String, kwMatch theftKeywords (jsToLowerCase s) = false →
      kwMatch threatKeywords (jsToLowerCase s) = false →
      kwMatch defamationKeywords (jsToLowerCase s) = false →
      kwMatch injuryKeywords (jsToLowerCase s) = false →
      classifyCase s = .general) ∧
    classifyCase "" = .general ∧
    classifyCase "   " = .general ∧
    classifyCase "He took my bag and hit me" = .theft := by
  refine ⟨?_, ?_, ?_, ?_, ?_, by decide, by decide, by decide⟩
  · intro s h1
    simp [classifyCase, h1]
  · intro s h1 h2
    simp [classifyCase, h1, h2]
  · intro s h1 h2 h3
    simp [classifyCase, h1, h2, h3]
  · intro s h1 h2 h3 h4
    simp [classifyCase, h1, h2, h3, h4]
  · intro s h1 h2 h3 h4
    simp [classifyCase, h1, h2, h3, h4]

/-- C1 witness: the first conjunct of the cascade theorem applied to a
concrete theft summary. -/
theorem classify_ordered_cascade_witness :
    kwMatch theftKeywords (jsToLowerCase "Someone stole my phone") = true ∧
    classifyCase "Someone stole my phone" = CaseCategory.theft :=
  ⟨by decide,
    classify_ordered_cascade.1 "Someone stole my phone" (by decide)⟩

/-- C2: `LEGAL_DATA` is a total lookup over the five categories; the records
for theft, threat, defamation and injury have non-empty `violations`, and
the general record has empty `jurisprudence` and empty `counters`. -/
theorem legal_data_lookup_total :
    (∀ c : CaseCategory, ∃ r : LegalRecord, LEGAL_DATA c = r) ∧
    (LEGAL_DATA .theft).violations ≠ [] ∧
    (LEGAL_DATA .threat).violations ≠ [] ∧
    (LEGAL_DATA .defamation).violations ≠ [] ∧
    (LEGAL_DATA .injury).violations ≠ [] ∧
    (LEGAL_DATA .general).jurisprudence = [] ∧
    (LEGAL_DATA .general).counters = [] :=
  ⟨fun c => ⟨LEGAL_DATA c, rfl⟩, by decide, by decide, by decide, by decide,
    rfl, rfl⟩

/-- C3 counterexample: the location argument is interpolated into the second
clarifying question as well, so a question outside `openEnded[0]` does
depend on the location. -/
theorem questions_location_only_first_open_ended_cx :
    (generateQuestions .general "complainant" "LocA" "").clarifying[1]? ≠
      (generateQuestions .general "complainant" "LocB" "").clarifying[1]? := by
  decide

/-- C3 (amended): `generateQuestions` interpolates the location into the
first `openEnded` question and into the second `clarifying` question, and
the locale-formatted dateTime into the first `openEnded` question only;
every other question string in all five lists is independent of location and
dateTime. -/
theorem questions_interpolation_sites :
    ∀ (c : CaseCategory) (r loc₁ dt₁ loc₂ dt₂ : String),
      (generateQuestions c r loc₁ dt₁).openEnded.tail =
        (generateQuestions c r loc₂ dt₂).openEnded.tail ∧
      (generateQuestions c r loc₁ dt₁).clarifying.head? =
        (generateQuestions c r loc₂ dt₂).clarifying.head? ∧
      (generateQuestions c r loc₁ dt₁).clarifying.drop 2 =
        (generateQuestions c r loc₂ dt₂).clarifying.drop 2 ∧
      (generateQuestions c r loc₁ dt₁).reflective =
        (generateQuestions c r loc₂ dt₂).reflective ∧
      (generateQuestions c r loc₁ dt₁).exploratory =
        (generateQuestions c r loc₂ dt₂).exploratory ∧
      (generateQuestions c r loc₁ dt₁).conscience =
        (generateQuestions c r loc₂ dt₂).conscience ∧
      (generateQuestions c r loc₁ dt₁).openEnded.head? =
        some ("Can you describe in your own words what happened at " ++
          (if loc₁ = "" then "the location" else loc₁) ++ " on " ++
          (if dt₁ = "" then "" else jsToLocaleString dt₁) ++ "?") ∧
      (generateQuestions c r loc₁ dt₁).clarifying[1]? =
        some ("Where exactly at " ++
          (if loc₁ = "" then "the location" else loc₁) ++
          " did the interaction take place?") := by
  intro c r loc₁ dt₁ loc₂ dt₂
  exact ⟨rfl, rfl, rfl, rfl, rfl, rfl, rfl, rfl⟩

/-- C4: the core pipeline is deterministic: the wall-clock observation made
inside `generateMediationStrategy` does not influence its result, and
`generateReport` returns structurally equal reports on identical form data
whatever the clock reads. -/
theorem report_pipeline_deterministic :
    (∀ (now₁ now₂ : String) (c : CaseCategory),
      generateMediationStrategy now₁ c = generateMediationStrategy now₂ c) ∧
    (∀ (now₁ now₂ : String) (fd : FormInput),
      generateReport now₁ fd = generateReport now₂ fd) := by
  constructor
  · intro now₁ now₂ c
    cases c <;> rfl
  · intro now₁ now₂ fd
    rfl

/-- C5: for every category the objectives of the generated mediation
strategy are exactly 5 and are the same fixed sequence regardless of
category. -/
theorem mediation_objectives_fixed_five :
    (∀ (now : String) (c : CaseCategory),
      (generateMediationStrategy now c).objectives.length = 5) ∧
    (∀ (now₁ now₂ : String) (c₁ c₂ : CaseCategory),
      (generateMediationStrategy now₁ c₁).objectives =
        (generateMediationStrategy now₂ c₂).objectives) := by
  constructor
  · intro now c
    cases c <;> rfl
  · intro now₁ now₂ c₁ c₂
    cases c₁ <;> cases c₂ <;> rfl

/-- C6: `generateQuestions` returns exactly 3 entries in each of the five
question lists, and its output is identical across all roles and all
categories — it depends only on location and dateTime. -/
theorem questions_role_category_invariant :
    (∀ (c₁ c₂ : CaseCategory) (r₁ r₂ loc dt : String),
      generateQuestions c₁ r₁ loc dt = generateQuestions c₂ r₂ loc dt) ∧
    (∀ (c : CaseCategory) (r loc dt : String),
      (generateQuestions c r loc dt).openEnded.length = 3 ∧
      (generateQuestions c r loc dt).clarifying.length = 3 ∧
      (generateQuestions c r loc dt).reflective.length = 3 ∧
      (generateQuestions c r loc dt).exploratory.length = 3 ∧
      (generateQuestions c r loc dt).conscience.length = 3) := by
  constructor
  · intro c₁ c₂ r₁ r₂ loc dt
    rfl
  · intro c r loc dt
    exact ⟨rfl, rfl, rfl, rfl, rfl⟩

/-- C7 counterexample: a non-empty unparseable dateTime is formatted as the
text "Invalid Date", not as empty text, in the first openEnded question. -/
theorem questions_unparseable_datetime_cx :
    (generateQuestions .general "complainant" "Plaza" "notadate").openEnded.head? =
      some "Can you describe in your own words what happened at Plaza on Invalid Date?" ∧
    (generateQuestions .general "complainant" "Plaza" "notadate").openEnded.head? ≠
      some "Can you describe in your own words what happened at Plaza on ?" := by
  constructor <;> decide

/-- C7 (amended): an empty location is replaced by the placeholder
"the location"; an empty dateTime substitutes empty text for the date
portion of the first openEnded question; a non-empty unparseable dateTime
substitutes the text "Invalid Date" there instead. -/
theorem questions_missing_inputs :
    ∀ (c : CaseCategory) (r loc dt : String),
      ((generateQuestions c r "" dt).openEnded.head? =
        some ("Can you describe in your own words what happened at " ++
          "the location" ++ " on " ++
          (if dt = "" then "" else jsToLocaleString dt) ++ "?")) ∧
      ((generateQuestions c r loc "").openEnded.head? =
        some ("Can you describe in your own words what happened at " ++
          (if loc = "" then "the location" else loc) ++ " on " ++ "" ++ "?")) ∧
      (dt ≠ "" → parseDateTimeLocal dt = none →
        (generateQuestions c r loc dt).openEnded.head? =
          some ("Can you describe in your own words what happened at " ++
            (if loc = "" then "the location" else loc) ++ " on " ++
            "Invalid Date" ++ "?")) := by
  intro c r loc dt
  refine ⟨rfl, rfl, fun h1 h2 => ?_⟩
  simp [generateQuestions, jsToLocaleString, h1, h2]

/-- C7 witness: the third conjunct of the amended theorem applied to the
concrete unparseable dateTime "notadate". -/
theorem questions_missing_inputs_witness :
    ("notadate" ≠ "" ∧ parseDateTimeLocal "notadate" = none) ∧
    (generateQuestions .general "respondent" "Plaza" "notadate").openEnded.head? =
      some ("Can you describe in your own words what happened at " ++
        (if ("Plaza" : String) = "" then "the location" else "Plaza") ++
        " on " ++ "Invalid Date" ++ "?") :=
  ⟨⟨by decide, by decide⟩,
    (questions_missing_inputs .general "respondent" "Plaza" "notadate").2.2
      (by decide) (by decide)⟩

/-- C8: on the sample theft scenario the classifier returns theft, the
pipeline produces a report whose analysis nature is "Theft / Qualified
Theft", whose mediation issues include the restitution item, and whose first
complainant openEnded question contains the literal location and the
formatted date derived from `2024-05-01T20:00`. -/
theorem end_to_end_theft_scenario :
    classifyCase sampleForm.incident.summary = .theft ∧
    ∃ r : CaseReport,
      generateReport "2024-05-02T09:00" sampleForm = some r ∧
      r.analysis.nature = "Theft / Qualified Theft" ∧
      "Return of the allegedly stolen property or restitution of its value" ∈
        r.mediation.issues ∧
      strContainsSub (r.questions.complainant.openEnded.headD "")
        "Purok 3, San Pedro City" = true ∧
      strContainsSub (r.questions.complainant.openEnded.headD "")
        "5/1/2024" = true ∧
      strContainsSub (r.questions.complainant.openEnded.headD "")
        "8:00:00 PM" = true :=
  ⟨by decide,
    ⟨_, rfl, by decide, by decide, by decide, by decide, by decide⟩⟩

/-- C9: when the trimmed incident summary is shorter than 30 characters,
validation fails and `generateReport` produces no report at all. -/
theorem short_summary_blocks_report :
    ∀ (now : String) (fd : FormInput),
      (jsTrim fd.incident.summary).length < 30 →
      generateReport now fd = none := by
  intro now fd h
  simp [generateReport, validateForm, h]

/-- C9 witness: the blocking theorem applied to a 29-character summary. -/
theorem short_summary_blocks_report_witness :
    (jsTrim shortSummaryForm.incident.summary).length < 30 ∧
    generateReport "2024-05-02T09:00" shortSummaryForm = none :=
  ⟨by decide,
    short_summary_blocks_report "2024-05-02T09:00" shortSummaryForm (by decide)⟩

/-- C10: keyword rules match as unanchored substrings, not whole words: any
summary containing "take" inside a longer word (such as "mistake" or
"intake") classifies as theft, and a summary containing "oral" (inside
"moral") with no theft or threat keyword classifies as defamation. -/
theorem classify_substring_matching :
    (∀ s : String, strContainsSub (jsToLowerCase s) "take" = true →
      classifyCase s = .theft) ∧
    (∀ s : String, kwMatch theftKeywords (jsToLowerCase s) = false →
      kwMatch threatKeywords (jsToLowerCase s) = false →
      strContainsSub (jsToLowerCase s) "oral" = true →
      classifyCase s = .defamation) ∧
    classifyCase "I made a mistake" = .theft ∧
    classifyCase "There is a problem with the intake valve" = .theft ∧
    classifyCase "He questioned my moral values" = .defamation := by
  refine ⟨?_, ?_, by decide, by decide, by decide⟩
  · intro s h
    have hm : kwMatch theftKeywords (jsToLowerCase s) = true := by
      unfold kwMatch
      exact List.any_eq_true.2 ⟨"take", by decide, h⟩
    simp [classifyCase, hm]
  · intro s h1 h2 h3
    have hm : kwMatch defamationKeywords (jsToLowerCase s) = true := by
      unfold kwMatch
      exact List.any_eq_true.2 ⟨"oral", by decide, h3⟩
    simp [classifyCase, h1, h2, hm]

/-- C10 witness: the substring conjunct applied to a summary whose only
theft-keyword occurrence is inside the word "mistake". -/
theorem classify_substring_matching_witness :
    strContainsSub (jsToLowerCase "That was clearly a mistake") "take" = true ∧
    classifyCase "That was clearly a mistake" = CaseCategory.theft :=
  ⟨by decide,
    classify_substring_matching.1 "That was clearly a mistake" (by decide)⟩

end BarangayCase
